import Mathlib

/-!
Shallow embedding of `src/app.py` (flask-cpu-load): a Flask app exposing
`/health`, `/start_cpu_intensive`, `/stop_cpu_intensive`, `/status_cpu_load`,
coordinating one background thread that runs a Fibonacci busy-loop guarded by
the shared flag `cpu_load_active`.

Modelling decisions:
- Request bodies are JSON values (`JVal`); `request.get_json(silent=True)`
  yields `Option JVal` (`none` when the body is absent or not JSON).
- Python `int(x)` is `pyInt`: exact on ints and bools (bool is a subclass of
  int, `int(True) = 1`), parses strings (sign, underscores between digits,
  surrounding whitespace), raises `ValueError` on non-numeric strings and
  `TypeError` on `None` / lists / dicts.  JSON numbers with a fractional part
  (Python floats) are outside the model.
- The handler `start_cpu_intensive` (app.py lines 63-92) is request-atomic:
  the conflict check (line 72), body validation (lines 77-85) and the spawn
  (lines 89-90) execute as one step, and the prologue of the spawned thread,
  `cpu_load_active = True` (line 45) is folded into the spawn.  A separate
  fine-grained interleaving model (`raceStep` below) keeps the line-72 check
  and the spawn as distinct atomic actions.
- An exception that escapes the handler (the uncaught `TypeError` paths)
  becomes the generic Flask 500 response, `HResp.serverError`.
- The background computation `calculate_fibonacci` (lines 23-37) reads the
  shared flag once per iteration boundary; those reads are an oracle
  `flag : Nat -> Bool` giving the value observed at boundary `i`.
-/

namespace CpuLoad

/-- JSON values as delivered by `request.get_json` (floats omitted). -/
inductive JVal where
  | jnull
  | jbool (b : Bool)
  | jint (n : Int)
  | jstr (s : String)
  | jarr (xs : List JVal)
  | jobj (fields : List (String × JVal))

/-- Python exceptions that the start handler can encounter. -/
inductive PyErr where
  | valueError
  | typeError
deriving DecidableEq

/-- Python truthiness (`if data and ...`, line 79): `None`, `False`, `0`,
empty string/list/dict are falsy. -/
def pyTruthy : JVal → Bool
  | .jnull => false
  | .jbool b => b
  | .jint n => n != 0
  | .jstr s => !s.isEmpty
  | .jarr xs => !xs.isEmpty
  | .jobj fs => !fs.isEmpty

/-- Whether `needle` occurs as a contiguous run inside the haystack (Python `in` on str). -/
def listContainsRun (needle : List Char) : List Char → Bool
  | [] => needle.isEmpty
  | c :: cs => needle.isPrefixOf (c :: cs) || listContainsRun needle cs

/-- Python `key in data` (line 79): key membership for dicts, element
membership for lists, substring test for strings, `TypeError` otherwise. -/
def pyContains (v : JVal) (key : String) : Except PyErr Bool :=
  match v with
  | .jobj fs => .ok (fs.any (fun p => p.1 == key))
  | .jarr xs => .ok (xs.any (fun x => match x with | .jstr s => s == key | _ => false))
  | .jstr s => .ok (listContainsRun key.toList s.toList)
  | _ => .error .typeError

/-- Python `data[key]` (line 81): dict lookup (JSON duplicate keys: last one
wins), `TypeError` on strings/lists subscripted by a string. -/
def pySubscript (v : JVal) (key : String) : Except PyErr JVal :=
  match v with
  | .jobj fs =>
    match fs.reverse.lookup key with
    | some w => .ok w
    | none => .error .typeError
  | _ => .error .typeError

/-- Decimal digits, with Python-style single underscores between digits. -/
def pyDigitsAux : List Char → Nat → Option Nat
  | [], acc => some acc
  | '_' :: c :: cs, acc =>
    if c.isDigit then pyDigitsAux cs (acc * 10 + (c.toNat - 48)) else none
  | ['_'], _ => none
  | c :: cs, acc =>
    if c.isDigit then pyDigitsAux cs (acc * 10 + (c.toNat - 48)) else none

/-- A nonempty digit run (first char must be a digit, not an underscore). -/
def pyParseDigits : List Char → Option Nat
  | [] => none
  | c :: cs => if c.isDigit then pyDigitsAux cs (c.toNat - 48) else none

/-- ASCII whitespace stripped by Python `int(str)`. -/
def isPySpace (c : Char) : Bool :=
  c == ' ' || c == '\t' || c == '\n' || c == '\r' || c == '\x0b' || c == '\x0c'

/-- Python `int(s)` for a string `s`: strip whitespace, optional sign,
digits; `none` models `ValueError`. -/
def pyIntOfString (s : String) : Option Int :=
  let cs := ((s.toList.dropWhile isPySpace).reverse.dropWhile isPySpace).reverse
  match cs with
  | '+' :: rest => (pyParseDigits rest).map (fun n => (n : Int))
  | '-' :: rest => (pyParseDigits rest).map (fun n => -(n : Int))
  | rest => (pyParseDigits rest).map (fun n => (n : Int))

/-- Python `int(x)` (line 81): ints and bools convert exactly, strings are
parsed (`ValueError` when non-numeric), `None`/lists/dicts raise `TypeError`.
Only `ValueError` is caught by the handler (line 84). -/
def pyInt : JVal → Except PyErr Int
  | .jbool b => .ok (if b then 1 else 0)
  | .jint n => .ok n
  | .jstr s =>
    match pyIntOfString s with
    | some n => .ok n
    | none => .error .valueError
  | .jnull => .error .typeError
  | .jarr _ => .error .typeError
  | .jobj _ => .error .typeError

/-- Handle to the thread spawned on line 89; it records the iteration count
the thread was started with. -/
structure ThreadHandle where
  iterations : Int
deriving DecidableEq

/-- The process-wide mutable globals: `cpu_load_active` (line 17) and
`cpu_thread` (line 20). -/
structure ServerState where
  cpu_load_active : Bool
  cpu_thread : Option ThreadHandle
deriving DecidableEq

/-- An HTTP response: a JSON body with a status code, or the generic Flask
500 page produced by an uncaught exception. -/
inductive HResp where
  | json (code : Nat) (body : JVal)
  | serverError

/-- Outcome of lines 77-85: the resolved iteration count, or one of the two
400 validation failures, or an uncaught exception. -/
inductive ResolveResult where
  | ok (n : Int)
  | badValue
  | nonPositive
  | pyError

/-- Lines 77-85 of `start_cpu_intensive`: read the optional body, default to
`FIB_ITERATIONS`, and when the (truthy) body has an `iterations` key run it
through `int(...)` and the positivity check.  Only `ValueError` is caught. -/
def resolveIterations (FIB_ITERATIONS : Int) (data : Option JVal) : ResolveResult :=
  match data with
  | none => .ok FIB_ITERATIONS
  | some d =>
    if pyTruthy d then
      match pyContains d "iterations" with
      | .error _ => .pyError
      | .ok false => .ok FIB_ITERATIONS
      | .ok true =>
        match pySubscript d "iterations" with
        | .error _ => .pyError
        | .ok v =>
          match pyInt v with
          | .ok n => if n ≤ 0 then .nonPositive else .ok n
          | .error .valueError => .badValue
          | .error .typeError => .pyError
    else .ok FIB_ITERATIONS

/-- Handler of `POST /start_cpu_intensive` (lines 63-92).  Returns the response, the
state of the globals afterwards, and the spawned thread handle (`none` when
no thread was spawned).  The first statement of the spawned thread,
`cpu_load_active = True` (line 45) is folded into the spawn step. -/
def start_cpu_intensive (FIB_ITERATIONS : Int) (st : ServerState)
    (body : Option JVal) : HResp × ServerState × Option ThreadHandle :=
  if st.cpu_load_active then
    (.json 409 (.jobj [("message", .jstr "CPU load already active.")]), st, none)
  else
    match resolveIterations FIB_ITERATIONS body with
    | .ok n =>
      (.json 202 (.jobj [("message",
          .jstr ("CPU-intensive task started with " ++ toString n ++ " iterations."))]),
       ⟨true, some ⟨n⟩⟩, some ⟨n⟩)
    | .badValue =>
      (.json 400 (.jobj [("error",
          .jstr "Invalid \x27iterations\x27 value. Must be an integer.")]), st, none)
    | .nonPositive =>
      (.json 400 (.jobj [("error",
          .jstr "Iterations must be a positive integer.")]), st, none)
    | .pyError => (.serverError, st, none)

/-- Handler of `POST /stop_cpu_intensive` (lines 94-113): when inactive, a 200 no-op;
when active, clear the flag (the thread is signalled, never joined). -/
def stop_cpu_intensive (st : ServerState) : HResp × ServerState :=
  if !st.cpu_load_active then
    (.json 200 (.jobj [("message", .jstr "No CPU load active.")]), st)
  else
    (.json 200 (.jobj [("message", .jstr "Signal sent to stop CPU-intensive task.")]),
     ⟨false, st.cpu_thread⟩)

/-- Line 127: `cpu_thread is not None and cpu_thread.is_alive()`.  Liveness
of a handle is external (time-dependent), so it is an oracle `alive`. -/
def currentThreadAlive (st : ServerState) (alive : ThreadHandle → Bool) : Bool :=
  match st.cpu_thread with
  | some t => alive t
  | none => false

/-- Handler of `GET /status_cpu_load` (lines 115-128): purely observational. -/
def get_cpu_load_status (FIB_ITERATIONS : Int) (st : ServerState)
    (alive : ThreadHandle → Bool) : HResp × ServerState :=
  (.json 200 (.jobj
    [("status", .jstr (if st.cpu_load_active then "active" else "inactive")),
     ("message", .jstr (if st.cpu_load_active then "CPU load is currently active."
                        else "No CPU load is currently active.")),
     ("fib_iterations_configured", .jint FIB_ITERATIONS),
     ("current_thread_alive", .jbool (currentThreadAlive st alive))]), st)

/-- Handler of `GET /health` (lines 54-61). -/
def health_check : HResp × Nat := (.json 200 (.jobj [("status", .jstr "OK")]), 200)

/-- One update of the recurrence `a, b = b, a + b` (line 35), on exact
(unbounded) integers as in Python. -/
def fibStep (p : Int × Int) : Int × Int := (p.2, p.1 + p.2)

/-- The loop of `calculate_fibonacci` (lines 30-35): at boundary `i` read the
shared flag (oracle `flag i`); if cleared, break with no further updates;
otherwise perform one `fibStep`.  Returns the final pair and the number of
updates actually performed. -/
def calcRun (flag : Nat → Bool) : Nat → Nat → Int × Int → (Int × Int) × Nat
  | _, 0, ab => (ab, 0)
  | i, n + 1, ab =>
    if flag i then
      let r := calcRun flag (i + 1) n (fibStep ab)
      (r.1, r.2 + 1)
    else (ab, 0)

/-- The function `calculate_fibonacci(iterations)` (lines 23-37): run the guarded loop
from `(0, 1)` over `range(iterations)` (empty when `iterations <= 0`) and
return `b`.  The function cannot fail: arithmetic is exact. -/
def calculate_fibonacci (iterations : Int) (flag : Nat → Bool) : Int :=
  ((calcRun flag 0 iterations.toNat (0, 1)).1).2

/-- The number of recurrence updates the loop performs before finishing. -/
def calcFibSteps (iterations : Int) (flag : Nat → Bool) : Nat :=
  (calcRun flag 0 iterations.toNat (0, 1)).2

/-- The function `start_cpu_load_thread` (lines 39-49), the body of the spawned thread:
set the flag (modelled as part of the spawn), run `calculate_fibonacci`,
discard its value, and clear the flag (line 48).  Returns the value of
`cpu_load_active` when the thread finishes. -/
def start_cpu_load_thread (iterations : Int) (flag : Nat → Bool) : Bool :=
  let _ := calculate_fibonacci iterations flag
  false

/-- The status code of a response, when it has one. -/
def respCode : HResp → Option Nat
  | .json c _ => some c
  | .serverError => none

/-- A field of a JSON-object response body. -/
def respField (r : HResp) (k : String) : Option JVal :=
  match r with
  | .json _ (.jobj fs) => fs.lookup k
  | _ => none

/-- Whether a response is the 202 acceptance of `start_cpu_intensive`. -/
def isAccepted : HResp → Bool
  | .json 202 _ => true
  | _ => false

/-- A sequence of `POST /start_cpu_intensive` requests processed one after
another (each handler runs request-atomically, and no background thread
finishes in between, so nobody resets the flag).  Returns the final state
and the list of responses. -/
def runStarts (FIB_ITERATIONS : Int) :
    ServerState → List (Option JVal) → ServerState × List HResp
  | st, [] => (st, [])
  | st, b :: bs =>
    let r := start_cpu_intensive FIB_ITERATIONS st b
    let rest := runStarts FIB_ITERATIONS r.2.1 bs
    (rest.1, r.1 :: rest.2)

/-!
Fine-grained interleaving model of two concurrent start requests with valid
bodies.  The Flask development server is threaded, and `start_cpu_intensive`
has no lock: the conflict test (line 72) and the spawn (lines 89-90, whose
thread sets `cpu_load_active = True` on line 45) are separate atomic actions
here — generously, the spawn and the flag-set of the spawned thread are still
merged into one atomic action, so any violation found below is caused purely
by the check/spawn interleaving.
-/

/-- Program counter of one start request in the fine-grained model. -/
inductive Pc where
  | atCheck
  | atSpawn
  | got409
  | got202
deriving DecidableEq

/-- Shared flag plus the program counters of the two requests. -/
structure RaceState where
  active : Bool
  pcA : Pc
  pcB : Pc

/-- Which request the scheduler runs next. -/
inductive Who where
  | A
  | B

/-- One atomic action of a start request: at `atCheck` execute the line-72
conflict test; at `atSpawn` execute lines 89-92 together with the spawned
line 45 of the thread (`cpu_load_active = True`).  Returns the new shared flag
and program counter. -/
def stepReq (active : Bool) : Pc → Bool × Pc
  | .atCheck => if active then (active, .got409) else (active, .atSpawn)
  | .atSpawn => (true, .got202)
  | pc => (active, pc)

/-- Run one atomic action of the scheduled request. -/
def raceStep (c : RaceState) : Who → RaceState
  | .A => let r := stepReq c.active c.pcA; ⟨r.1, r.2, c.pcB⟩
  | .B => let r := stepReq c.active c.pcB; ⟨r.1, c.pcA, r.2⟩

/-- Run a schedule (a list of scheduler choices). -/
def raceRun (c : RaceState) (ws : List Who) : RaceState := ws.foldl raceStep c

end CpuLoad

namespace CpuLoad

/-- When the flag is set, the handler answers 409 and touches nothing
(line 72 fires before the body is even read). -/
lemma start_when_active (cfg : Int) (th : Option ThreadHandle) (body : Option JVal) :
    start_cpu_intensive cfg ⟨true, th⟩ body =
      (.json 409 (.jobj [("message", .jstr "CPU load already active.")]),
       ⟨true, th⟩, none) := rfl

/-- When the flag is clear, the outcome of the handler is decided by
`resolveIterations`. -/
lemma start_when_inactive (cfg : Int) (th : Option ThreadHandle) (body : Option JVal) :
    start_cpu_intensive cfg ⟨false, th⟩ body =
      match resolveIterations cfg body with
      | .ok n =>
        (.json 202 (.jobj [("message",
            .jstr ("CPU-intensive task started with " ++ toString n ++ " iterations."))]),
         ⟨true, some ⟨n⟩⟩, some ⟨n⟩)
      | .badValue =>
        (.json 400 (.jobj [("error",
            .jstr "Invalid \x27iterations\x27 value. Must be an integer.")]), ⟨false, th⟩, none)
      | .nonPositive =>
        (.json 400 (.jobj [("error",
            .jstr "Iterations must be a positive integer.")]), ⟨false, th⟩, none)
      | .pyError => (.serverError, ⟨false, th⟩, none) := rfl

/-- For a body `{"iterations": v}`, resolution is decided by `int(v)` and
the positivity test. -/
lemma resolve_obj_single (cfg : Int) (v : JVal) :
    resolveIterations cfg (some (.jobj [("iterations", v)])) =
      match pyInt v with
      | .ok n => if n ≤ 0 then .nonPositive else .ok n
      | .error .valueError => .badValue
      | .error .typeError => .pyError := rfl

/-- C1 (counterexample): the claim says every supplied non-integer
`iterations` value draws a 400 with no state change and no spawn.  But for
the body `{"iterations": true}` — a JSON boolean, not an integer — the Python call
`int(True)` yields `1`, so in an inactive state the handler answers 202,
sets the flag, and spawns a thread with 1 iteration. -/
theorem C1_counterexample :
    start_cpu_intensive 500000 ⟨false, none⟩ (some (.jobj [("iterations", .jbool true)])) =
      (.json 202 (.jobj [("message",
          .jstr "CPU-intensive task started with 1 iterations.")]),
       ⟨true, some ⟨1⟩⟩, some ⟨1⟩) := rfl

/-- C1 (amended): in an inactive state, for a supplied `iterations` value
`v`: if `int(v)` raises `ValueError` (non-numeric strings), the handler
answers 400 with the "Invalid ... Must be an integer." error body; if
`int(v)` succeeds with a non-positive result, it answers 400 with the
"positive integer" error body; in both cases the flag is untouched and no
thread is spawned.  (Values `int` converts to a positive result — booleans
included — are accepted instead, and values raising `TypeError` escape the
handler as a 500.) -/
theorem C1_validation (cfg : Int) (th : Option ThreadHandle) (v : JVal) :
    (pyInt v = .error .valueError →
      start_cpu_intensive cfg ⟨false, th⟩ (some (.jobj [("iterations", v)])) =
        (.json 400 (.jobj [("error",
            .jstr "Invalid \x27iterations\x27 value. Must be an integer.")]),
         ⟨false, th⟩, none)) ∧
    (∀ n : Int, pyInt v = .ok n → n ≤ 0 →
      start_cpu_intensive cfg ⟨false, th⟩ (some (.jobj [("iterations", v)])) =
        (.json 400 (.jobj [("error",
            .jstr "Iterations must be a positive integer.")]),
         ⟨false, th⟩, none)) := by
  constructor
  · intro h
    rw [start_when_inactive, resolve_obj_single, h]
  · intro n h hle
    rw [start_when_inactive, resolve_obj_single, h]
    simp [hle]

/-- Witness for C1: the non-numeric string "abc" and the non-positive
integer 0 each draw their 400 error, leave the state alone, and spawn
nothing. -/
theorem C1_validation_witness :
    start_cpu_intensive 500000 ⟨false, none⟩ (some (.jobj [("iterations", .jstr "abc")])) =
      (.json 400 (.jobj [("error",
          .jstr "Invalid \x27iterations\x27 value. Must be an integer.")]),
       ⟨false, none⟩, none) ∧
    start_cpu_intensive 500000 ⟨false, none⟩ (some (.jobj [("iterations", .jint 0)])) =
      (.json 400 (.jobj [("error",
          .jstr "Iterations must be a positive integer.")]),
       ⟨false, none⟩, none) :=
  ⟨(C1_validation 500000 none (.jstr "abc")).1 rfl,
   (C1_validation 500000 none (.jint 0)).2 0 rfl (by decide)⟩

/-- C2: in an inactive state, a start request with no usable body runs with
the configured default `FIB_ITERATIONS`, and one whose `iterations` value
converts to a positive integer `n` runs with `n`; either way the handler
sets the flag, records and spawns a thread with the resolved count, and
answers 202 with the confirmation message.  The response is computed without
the background computation (which is not an input of the handler): the 202
precedes completion of the work. -/
theorem C2_start_accepts (cfg : Int) (th : Option ThreadHandle) :
    (start_cpu_intensive cfg ⟨false, th⟩ none =
      (.json 202 (.jobj [("message",
          .jstr ("CPU-intensive task started with " ++ toString cfg ++ " iterations."))]),
       ⟨true, some ⟨cfg⟩⟩, some ⟨cfg⟩)) ∧
    (∀ (v : JVal) (n : Int), pyInt v = .ok n → 0 < n →
      start_cpu_intensive cfg ⟨false, th⟩ (some (.jobj [("iterations", v)])) =
        (.json 202 (.jobj [("message",
            .jstr ("CPU-intensive task started with " ++ toString n ++ " iterations."))]),
         ⟨true, some ⟨n⟩⟩, some ⟨n⟩)) := by
  constructor
  · rfl
  · intro v n h hn
    rw [start_when_inactive, resolve_obj_single, h]
    simp [not_le.mpr hn]

/-- Witness for C2: an absent body starts the default 500000 iterations; a
body `{"iterations": 7}` starts 7. -/
theorem C2_start_accepts_witness :
    start_cpu_intensive 500000 ⟨false, none⟩ none =
      (.json 202 (.jobj [("message",
          .jstr "CPU-intensive task started with 500000 iterations.")]),
       ⟨true, some ⟨500000⟩⟩, some ⟨500000⟩) ∧
    start_cpu_intensive 500000 ⟨false, none⟩ (some (.jobj [("iterations", .jint 7)])) =
      (.json 202 (.jobj [("message",
          .jstr "CPU-intensive task started with 7 iterations.")]),
       ⟨true, some ⟨7⟩⟩, some ⟨7⟩) :=
  ⟨(C2_start_accepts 500000 none).1,
   (C2_start_accepts 500000 none).2 (.jint 7) 7 rfl (by decide)⟩

/-- C4: while the flag is set, any start request — whatever its body, an
invalid `iterations` value included — draws 409 with the "already active"
message, leaves the state untouched, and spawns nothing: the line-72
conflict check precedes body validation, so no 400 can be produced while a
task is active. -/
theorem C4_conflict (cfg : Int) (th : Option ThreadHandle) (body : Option JVal) :
    start_cpu_intensive cfg ⟨true, th⟩ body =
      (.json 409 (.jobj [("message", .jstr "CPU load already active.")]),
       ⟨true, th⟩, none) :=
  start_when_active cfg th body

/-- C6: stopping while inactive answers 200 "No CPU load active." and
changes nothing (the thread handle included), so a repeated call gives the
same response and state. -/
theorem C6_stop_idempotent (th : Option ThreadHandle) :
    stop_cpu_intensive ⟨false, th⟩ =
      (.json 200 (.jobj [("message", .jstr "No CPU load active.")]), ⟨false, th⟩) ∧
    stop_cpu_intensive (stop_cpu_intensive ⟨false, th⟩).2 =
      stop_cpu_intensive ⟨false, th⟩ :=
  ⟨rfl, rfl⟩

/-- C7: stopping while active clears the flag (only — the thread handle is
kept and the thread is not joined or consulted: the handler takes no input
from the background unit) and answers 200 with the signal message. -/
theorem C7_stop_signals (th : Option ThreadHandle) :
    stop_cpu_intensive ⟨true, th⟩ =
      (.json 200 (.jobj [("message", .jstr "Signal sent to stop CPU-intensive task.")]),
       ⟨false, th⟩) := rfl

/-- C8: the status endpoint mutates nothing, answers 200, reports "active"
exactly when the flag is set, and its `fib_iterations_configured` field is
the configured default — independent of the state, hence of whatever
per-request override the recorded thread handle carries. -/
theorem C8_status (cfg : Int) (st : ServerState) (alive : ThreadHandle → Bool) :
    (get_cpu_load_status cfg st alive).2 = st ∧
    respCode (get_cpu_load_status cfg st alive).1 = some 200 ∧
    respField (get_cpu_load_status cfg st alive).1 "status" =
      some (.jstr (if st.cpu_load_active then "active" else "inactive")) ∧
    respField (get_cpu_load_status cfg st alive).1 "fib_iterations_configured" =
      some (.jint cfg) ∧
    respField (get_cpu_load_status cfg st alive).1 "current_thread_alive" =
      some (.jbool (currentThreadAlive st alive)) :=
  ⟨rfl, rfl, rfl, rfl, rfl⟩

/-- While the flag reads true at every boundary, the loop performs one
`fibStep` per iteration. -/
lemma calcRun_all_true (flag : Nat → Bool) :
    ∀ (n i : Nat) (ab : Int × Int), (∀ j, j < n → flag (i + j) = true) →
      calcRun flag i n ab = (fibStep^[n] ab, n) := by
  intro n
  induction n with
  | zero => intro i ab _; rfl
  | succ m ih =>
    intro i ab h
    have h0 : flag i = true := by simpa using h 0 (Nat.succ_pos m)
    have hrec := ih (i + 1) (fibStep ab) (fun j hj => by
      rw [show i + 1 + j = i + (j + 1) by omega]
      exact h (j + 1) (by omega))
    simp only [calcRun, h0, if_true, hrec]
    rw [Function.iterate_succ_apply]

/-- If the flag reads true at the first `k` boundaries and false at the
`k`-th (with `k` within the budget), the loop performs exactly `k` updates
and stops there. -/
lemma calcRun_stops (flag : Nat → Bool) :
    ∀ (k n i : Nat) (ab : Int × Int), k < n → flag (i + k) = false →
      (∀ j, j < k → flag (i + j) = true) →
      calcRun flag i n ab = (fibStep^[k] ab, k) := by
  intro k
  induction k with
  | zero =>
    intro n i ab hn hf _
    obtain ⟨m, rfl⟩ : ∃ m, n = m + 1 := ⟨n - 1, by omega⟩
    have h0 : flag i = false := by simpa using hf
    simp [calcRun, h0]
  | succ k ih =>
    intro n i ab hn hf ht
    obtain ⟨m, rfl⟩ : ∃ m, n = m + 1 := ⟨n - 1, by omega⟩
    have h0 : flag i = true := by simpa using ht 0 (Nat.succ_pos k)
    have hrec := ih m (i + 1) (fibStep ab) (by omega)
      (by rw [show i + 1 + k = i + (k + 1) by omega]; exact hf)
      (fun j hj => by
        rw [show i + 1 + j = i + (j + 1) by omega]
        exact ht (j + 1) (by omega))
    simp only [calcRun, h0, if_true, hrec]
    rw [Function.iterate_succ_apply]

/-- Performing `k` recurrence updates from `(0, 1)` lands on the pair
`(fib k, fib (k+1))`. -/
lemma iterate_fibStep_init (k : Nat) :
    fibStep^[k] ((0 : Int), (1 : Int)) = ((Nat.fib k : Int), (Nat.fib (k + 1) : Int)) := by
  induction k with
  | zero => simp
  | succ k ih =>
    rw [Function.iterate_succ_apply', ih]
    show ((Nat.fib (k + 1) : Int), (Nat.fib k : Int) + (Nat.fib (k + 1) : Int)) = _
    rw [show k + 1 + 1 = k + 2 from rfl, Nat.fib_add_two]
    push_cast
    ring_nf

/-- C9: with the flag held true throughout, `calculate_fibonacci(n)`
advances `(a, b) <- (b, a + b)` from `(0, 1)` exactly `n` times over exact
integers (no overflow is possible in the model, as in Python) and returns
`fib (n + 1)`; its caller `start_cpu_load_thread` does not expose the value
(its result type carries only the final flag). -/
theorem C9_fib_computation (n : Nat) :
    calculate_fibonacci (n : Int) (fun _ => true) = (Nat.fib (n + 1) : Int) ∧
    calcFibSteps (n : Int) (fun _ => true) = n := by
  have hrun := calcRun_all_true (fun _ => true) n 0 (0, 1) (fun j _ => rfl)
  have ht : ((n : Int)).toNat = n := Int.toNat_natCast n
  constructor
  · unfold calculate_fibonacci
    rw [ht, hrun, iterate_fibStep_init]
  · unfold calcFibSteps
    rw [ht, hrun]

/-- C3: the loop reads the shared flag at every boundary; if the first
cleared read is at boundary `k` (within the budget), it stops right there —
exactly `k` updates, no error, value `fib (k+1)` — and the thread body
clears the flag before finishing (as it also does after exhausting the
budget: `start_cpu_load_thread` returns false unconditionally). -/
theorem C3_early_stop (iterations : Int) (flag : Nat → Bool) (k : Nat)
    (hk : (k : Int) < iterations) (hfalse : flag k = false)
    (htrue : ∀ j, j < k → flag j = true) :
    calcFibSteps iterations flag = k ∧
    calculate_fibonacci iterations flag = (Nat.fib (k + 1) : Int) ∧
    start_cpu_load_thread iterations flag = false := by
  have hkn : k < iterations.toNat := by omega
  have hrun := calcRun_stops flag k iterations.toNat 0 (0, 1) hkn
    (by simpa using hfalse) (fun j hj => by simpa using htrue j hj)
  refine ⟨?_, ?_, rfl⟩
  · unfold calcFibSteps
    rw [hrun]
  · unfold calculate_fibonacci
    rw [hrun, iterate_fibStep_init]

/-- Witness for C3: budget 5, flag cleared from boundary 2 on — the loop
stops after exactly 2 updates with value fib 3 = 2, and the thread body
ends with the flag cleared. -/
theorem C3_early_stop_witness :
    calcFibSteps 5 (fun i => decide (i < 2)) = 2 ∧
    calculate_fibonacci 5 (fun i => decide (i < 2)) = (2 : Int) ∧
    start_cpu_load_thread 5 (fun i => decide (i < 2)) = false :=
  C3_early_stop 5 (fun i => decide (i < 2)) 2 (by decide) (by decide)
    (fun j hj => decide_eq_true hj)

/-- Starting from a set flag, a run of start requests accepts nobody. -/
lemma runStarts_active (cfg : Int) :
    ∀ (bs : List (Option JVal)) (th : Option ThreadHandle),
      ((runStarts cfg ⟨true, th⟩ bs).2.countP isAccepted) = 0 := by
  intro bs
  induction bs with
  | nil => intro th; rfl
  | cons b bs ih =>
    intro th
    simp only [runStarts, start_when_active]
    rw [List.countP_cons, ih th]
    rfl

/-- From a clear flag, one start request either sets the flag, or is not
accepted and leaves the state untouched. -/
lemma start_inactive_cases (cfg : Int) (th : Option ThreadHandle) (b : Option JVal) :
    (start_cpu_intensive cfg ⟨false, th⟩ b).2.1.cpu_load_active = true ∨
    (isAccepted (start_cpu_intensive cfg ⟨false, th⟩ b).1 = false ∧
     (start_cpu_intensive cfg ⟨false, th⟩ b).2.1 = ⟨false, th⟩) := by
  rw [start_when_inactive]
  cases resolveIterations cfg b with
  | ok n => left; rfl
  | badValue => right; exact ⟨rfl, rfl⟩
  | nonPositive => right; exact ⟨rfl, rfl⟩
  | pyError => right; exact ⟨rfl, rfl⟩

/-- C5 (counterexample): the mutual-exclusion claim quantifies over all
sequences of concurrent start requests, but the handler has no lock.  Under
the schedule A-check, B-check, A-spawn, B-spawn — both requests pass the
line-72 conflict test before either spawn sets the shared flag — both
requests reach the 202 acceptance, even though each spawn is modelled
atomically together with the flag-set done by the spawned thread. -/
theorem C5_counterexample :
    (raceRun ⟨false, .atCheck, .atCheck⟩ [.A, .B, .A, .B]).pcA = .got202 ∧
    (raceRun ⟨false, .atCheck, .atCheck⟩ [.A, .B, .A, .B]).pcB = .got202 :=
  ⟨rfl, rfl⟩

/-- C5 (amended): when each start request runs request-atomically (its
conflict check and spawn not interleaved with those of another request), any
sequence of start requests — from any starting state, with no background
completion in between — receives at most one 202 acceptance; all others get
the 409 conflict (or a validation failure) and their iteration count is
discarded: the rejected requests leave the state untouched and spawn
nothing. -/
theorem C5_mutex_request_atomic (cfg : Int) (bs : List (Option JVal)) (st : ServerState) :
    ((runStarts cfg st bs).2.countP isAccepted) ≤ 1 := by
  induction bs generalizing st with
  | nil => simp [runStarts]
  | cons b bs ih =>
    obtain ⟨a, th⟩ := st
    cases a with
    | true =>
      have h := runStarts_active cfg (b :: bs) th
      omega
    | false =>
      simp only [runStarts]
      rw [List.countP_cons]
      rcases start_inactive_cases cfg th b with h | ⟨h1, h2⟩
      · obtain ⟨a2, th2, heq⟩ : ∃ a2 th2,
            (start_cpu_intensive cfg ⟨false, th⟩ b).2.1 = ⟨a2, th2⟩ :=
          ⟨_, _, rfl⟩
        rw [heq] at h ⊢
        simp only at h
        subst h
        rw [runStarts_active cfg bs]
        split <;> omega
      · rw [h2, h1]
        have := ih ⟨false, th⟩
        simpa using this

/-- C10: the thread handle survives everything but a successful start —
stop keeps it in both branches, status changes no state at all, and start
either spawns a thread (and records exactly that handle) or leaves the
handle as it was; consequently `current_thread_alive` queries the handle of
the most recently spawned thread, and is false when no start has ever
recorded one. -/
theorem C10_handle_frame (cfg : Int) (st : ServerState) (body : Option JVal)
    (alive : ThreadHandle → Bool) :
    (stop_cpu_intensive st).2.cpu_thread = st.cpu_thread ∧
    (get_cpu_load_status cfg st alive).2 = st ∧
    ((start_cpu_intensive cfg st body).2.1.cpu_thread =
      match (start_cpu_intensive cfg st body).2.2 with
      | some t => some t
      | none => st.cpu_thread) ∧
    currentThreadAlive ⟨st.cpu_load_active, none⟩ alive = false := by
  obtain ⟨a, th⟩ := st
  refine ⟨?_, rfl, ?_, rfl⟩
  · cases a <;> rfl
  · cases a with
    | true => rfl
    | false =>
      rw [start_when_inactive]
      cases resolveIterations cfg body <;> rfl

end CpuLoad
